import Mathlib

/-!
Verification development for the Solasta Smart Scheduler orchestration core.

This file gives a shallow embedding, in Lean 4, of the parts of the Python
source relevant to the behavioural claims about the orchestration engine:

* `app/schemas/models.py`   — the Goal/Plan/Step data model and its pure
  operations (`get_ready_steps`, `is_complete`, `has_failed_steps`);
* `app/orchestrator/engine.py` — the per-step evaluation-outcome handler of
  `_execute_plan`, the goal-finalization phase of `process_goal`, the
  DEMO-SAFE short-circuit branch, and `_broadcast`;
* `app/cognitive/agents/replanner.py` — `_apply_modifications`,
  `_simple_retry` and the fallback structure of `replan`;
* `app/cognitive/llm/provider.py` — `LLMGateway.generate`: the in-provider
  rate-limit retry loop and the provider fallback chain;
* `app/tools/registry.py` — `execute_tool` and its error taxonomy.

Conventions of the embedding: opaque identity fields that are freshly
generated UUIDs (`Plan.id`, `AgentLog.id`) and wall-clock timestamps are
either dropped or abstracted as `Option Nat` values, since no claim depends
on their concrete values; Python exceptions become `Except` values; awaited
persistence calls that echo their argument back are elided (the SQLite
repositories in `app/db/repository.py` store the given record unchanged and
return it).  Machine integers are modelled as `Nat` (all counters involved
are non-negative and never near overflow).
-/

namespace Solasta

/-- Character-list prefix test (`needle` begins `hay`), used to model the
Python `in` substring operator. -/
def leadMatch : List Char → List Char → Bool
  | [], _ => true
  | _ :: _, [] => false
  | a :: as, b :: bs => a == b && leadMatch as bs

/-- Character-list containment test: does `needle` occur contiguously inside
`hay`?  This models Python's `needle in hay` on strings. -/
def containsSeq (needle : List Char) : List Char → Bool
  | [] => leadMatch needle []
  | b :: bs => leadMatch needle (b :: bs) || containsSeq needle bs

/-- Python `str.upper` restricted to the ASCII range (all strings the code
compares are ASCII). -/
def pyUpper (s : List Char) : List Char := s.map Char.toUpper

/-- Python `str.lower` restricted to the ASCII range. -/
def pyLower (s : List Char) : List Char := s.map Char.toLower

/-- First-occurrence-preserving deduplication, modelling Python's
`list(dict.fromkeys(...))` idiom in `_apply_modifications`
(`app/cognitive/agents/replanner.py:228`). -/
def pyDedup (l : List String) : List String :=
  l.foldl (fun acc x => if acc.contains x then acc else acc ++ [x]) []

-- ━━━━━━━━━━━━━━━━━━━━━━━━━━━━━━━━━━━━━━━━━━━━━━━━━━━━━━━━━━
-- Data model (app/schemas/models.py)
-- ━━━━━━━━━━━━━━━━━━━━━━━━━━━━━━━━━━━━━━━━━━━━━━━━━━━━━━━━━━

/-- `GoalStatus` enum (`models.py:24-30`). -/
inductive GoalStatus
  | received | planning | executing | paused | completed | failed
deriving DecidableEq, Repr

/-- `StepStatus` enum (`models.py:33-40`). -/
inductive StepStatus
  | pending | in_progress | evaluating | completed | failed | skipped | replanned
deriving DecidableEq, Repr

/-- `StepPriority` enum (`models.py:43-46`). -/
inductive StepPriority
  | high | medium | low
deriving DecidableEq, Repr

/-- `EvalResult` enum (`models.py:49-52`); `partialSuccess` embeds the
member named `PARTIAL` in the source. -/
inductive EvalResult
  | success | failure | partialSuccess
deriving DecidableEq, Repr

/-- Opaque structured result payload (`result_payload: Optional[Dict[str, Any]]`):
the engine never inspects its contents, so a string-keyed association list of
strings suffices. -/
abbrev Payload := List (String × String)

/-- `Step` (`models.py:84-100`).  `started_at`/`completed_at` timestamps are
abstracted as `Option Nat` clock readings. -/
structure Step where
  step_id : String
  title : String
  description : String
  expected_outcome : String
  thought_process : String := ""
  priority : StepPriority := .medium
  depends_on : List String := []
  required_tools : List String := []
  status : StepStatus := .pending
  result_payload : Option Payload := none
  error_message : Option String := none
  retry_count : Nat := 0
  max_retries : Nat := 3
  started_at : Option Nat := none
  completed_at : Option Nat := none
deriving DecidableEq, Repr

/-- `Plan` (`models.py:108-115`); the freshly-generated UUID `id` and the
creation timestamp are dropped (no claim reads them). -/
structure Plan where
  goal_id : String
  version : Nat := 1
  is_active : Bool := true
  steps : List Step := []
deriving DecidableEq, Repr

/-- `Plan.get_ready_steps` (`models.py:117-128`): collect the ids of
completed/skipped steps, then keep the pending steps all of whose
dependencies are among those ids. -/
def Plan.get_ready_steps (p : Plan) : List Step :=
  let completed_ids :=
    (p.steps.filter fun s => s.status == .completed || s.status == .skipped).map
      (fun s => s.step_id)
  p.steps.filter fun s =>
    s.status == .pending && s.depends_on.all (fun dep => completed_ids.contains dep)

/-- `Plan.is_complete` (`models.py:130-131`). -/
def Plan.is_complete (p : Plan) : Bool :=
  p.steps.all fun s => s.status == .completed || s.status == .skipped

/-- `Plan.has_failed_steps` (`models.py:133-134`). -/
def Plan.has_failed_steps (p : Plan) : Bool :=
  p.steps.any fun s => s.status == .failed

/-- `Goal` (`models.py:66-76`); fields no claim reads
(`parsed_objective`, `constraints`, timestamps) are dropped. -/
structure Goal where
  id : String
  user_id : String
  raw_input : String
  status : GoalStatus := .received
  active_plan_id : Option String := none
deriving DecidableEq, Repr

/-- A broadcast `StreamEvent` (`models.py:187-192`): only the `event_type`
tag and the goal reference are inspected by the claims, so the structured
`data` payload is dropped. -/
structure Ev where
  event_type : String
  goal_id : String
deriving DecidableEq, Repr

-- ━━━━━━━━━━━━━━━━━━━━━━━━━━━━━━━━━━━━━━━━━━━━━━━━━━━━━━━━━━
-- Replanner (app/cognitive/agents/replanner.py)
-- ━━━━━━━━━━━━━━━━━━━━━━━━━━━━━━━━━━━━━━━━━━━━━━━━━━━━━━━━━━

/-- One entry of the replanner response's `modified_steps` array
(`replanner.py:49-61`).  A field is `none` when the key is absent from the
parsed JSON object (Python `dict.get` default paths).  `priority` strings are
assumed to parse to a valid `StepPriority` member (an invalid string would
raise inside `_apply_modifications`; that fault path is outside the claims). -/
structure ModStep where
  step_id : Option String := none
  title : Option String := none
  description : Option String := none
  expected_outcome : Option String := none
  thought_process : Option String := none
  priority : Option StepPriority := none
  depends_on : Option (List String) := none
  required_tools : Option (List String) := none
  is_new : Bool := false
deriving DecidableEq, Repr

/-- Parsed replanner response (`replanner.py:160-174`): `strategy` is kept as
a raw string because `_apply_modifications` compares it against literals and
silently ignores unknown values (`replan_data.get("strategy", "retry")`). -/
structure ReplanData where
  strategy : String := "retry"
  modified_steps : List ModStep := []
deriving Repr

/-- The `modified_by_id` dict lookup of `_apply_modifications`
(`replanner.py:170-174`): keys are the truthy (non-empty) `step_id`s of
entries not marked `is_new`; a dict comprehension keeps the last binding for
a repeated key, hence `getLast?`. -/
def modById (mods : List ModStep) (sid : String) : Option ModStep :=
  (mods.filter fun ms => ms.step_id == some sid && sid != "" && !ms.is_new).getLast?

/-- Field-wise edit of an existing step from its `modified_steps` entry
(`replanner.py:181-188`): each `ms.get(key, current)` keeps the current value
when the key is absent. -/
def applyExistingMod (ms : ModStep) (s : Step) : Step :=
  { s with
    title := ms.title.getD s.title
    description := ms.description.getD s.description
    expected_outcome := ms.expected_outcome.getD s.expected_outcome
    thought_process := ms.thought_process.getD s.thought_process
    priority := ms.priority.getD s.priority
    depends_on := ms.depends_on.getD s.depends_on
    required_tools := ms.required_tools.getD s.required_tools }

/-- Status adjustment of the failed step by strategy (`replanner.py:190-200`);
an unrecognized strategy string leaves the step unchanged (no matching
branch). -/
def applyStrategyToFailed (strategy : String) (s : Step) : Step :=
  if strategy == "retry" then
    { s with
      status := .pending, retry_count := 0, error_message := none,
      result_payload := none }
  else if strategy == "skip" then
    { s with status := .skipped }
  else if strategy == "escalate" then
    { s with status := .failed, error_message := some "Escalated for human intervention" }
  else s

/-- Per-step body of the copy loop of `_apply_modifications`
(`replanner.py:177-201`): apply the `modified_by_id` edit unless the step is
completed, then the strategy block when the step is the failed one. -/
def reviseStep (rd : ReplanData) (failed_step : Step) (s : Step) : Step :=
  let s1 :=
    match modById rd.modified_steps s.step_id with
    | some ms => if s.status != .completed then applyExistingMod ms s else s
    | none => s
  if s.step_id == failed_step.step_id then applyStrategyToFailed rd.strategy s1 else s1

/-- Construction of one inserted recovery step (`replanner.py:206-219`).
`fresh` stands for the `f"replan_{uuid4()[:6]}"` fresh-id source; the Python
`ms.get("depends_on", []) or list(failed_step.depends_on)` falls back to the
failed step's dependencies when the key is absent or its value is empty. -/
def mkInsertedStep (failed_step : Step) (fresh : String) (ms : ModStep) : Step :=
  { step_id := ms.step_id.getD ("replan_" ++ fresh)
    title := ms.title.getD "Recovery Step"
    description := ms.description.getD ""
    expected_outcome := ms.expected_outcome.getD ""
    thought_process := ms.thought_process.getD "Inserted by replanner (strategy: insert)"
    priority := ms.priority.getD .high
    depends_on :=
      match ms.depends_on with
      | some d => if d.isEmpty then failed_step.depends_on else d
      | none => failed_step.depends_on
    required_tools := ms.required_tools.getD [] }

/-- The inserted steps of the `insert` strategy (`replanner.py:204-221`), in
input order, with fresh ids supplied per position. -/
def insertedSteps (failed_step : Step) (fresh : Nat → String) (mods : List ModStep) : List Step :=
  (mods.filter fun ms => ms.is_new).enum.map fun im => mkInsertedStep failed_step (fresh im.1) im.2

/-- The post-insert fixup loop of `_apply_modifications`
(`replanner.py:223-230`): reset any step whose id equals the failed step's id
to pending, zero its counter, and extend its dependencies with the inserted
ids (first-occurrence dedup). -/
def insertFixup (failed_step : Step) (inserted_ids : List String) (s : Step) : Step :=
  if s.step_id == failed_step.step_id then
    { s with
      status := .pending, retry_count := 0,
      depends_on := pyDedup (s.depends_on ++ inserted_ids),
      error_message := none, result_payload := none }
  else s

/-- `ReplannerAgent._apply_modifications` (`replanner.py:160-237`): copy and
revise the old steps, append inserted steps under the `insert` strategy, and
return a new plan with `version = old + 1` and `is_active = True`
(`replanner.py:232-237`). -/
def applyModifications (old_plan : Plan) (failed_step : Step) (rd : ReplanData)
    (fresh : Nat → String) : Plan :=
  let base := old_plan.steps.map (reviseStep rd failed_step)
  if rd.strategy == "insert" then
    let inserted := insertedSteps failed_step fresh rd.modified_steps
    let ids := inserted.map fun s => s.step_id
    { goal_id := old_plan.goal_id, version := old_plan.version + 1, is_active := true,
      steps := (base ++ inserted).map (insertFixup failed_step ids) }
  else
    { goal_id := old_plan.goal_id, version := old_plan.version + 1, is_active := true,
      steps := base }

/-- Per-step body of `_simple_retry` (`replanner.py:246-263`): a step already
at or above its ceiling is marked failed with the terminal hard-cap message,
otherwise it is reset to pending with its counter incremented. -/
def simpleRetryStep (s : Step) : Step :=
  if s.retry_count ≥ s.max_retries then
    { s with
      status := .failed,
      error_message := some ("Hard cap reached: " ++ toString s.retry_count ++
        " retries exhausted. Terminating loop.") }
  else
    { s with
      status := .pending, retry_count := s.retry_count + 1,
      error_message := none, result_payload := none }

/-- `ReplannerAgent._simple_retry` (`replanner.py:239-270`): apply the
hard-cap retry rule to the failed step only; new plan version is `old + 1`,
active. -/
def simpleRetry (plan : Plan) (failed_step : Step) : Plan :=
  { goal_id := plan.goal_id, version := plan.version + 1, is_active := true,
    steps := plan.steps.map fun s =>
      if s.step_id == failed_step.step_id then simpleRetryStep s else s }

/-- `ReplannerAgent.replan` (`replanner.py:69-135`).  The LLM interaction is
abstracted by its outcome `gen`: `.ok rd` when generation, logging and
parsing produced replan data `rd` (`_parse_replan_response` itself never
raises — a JSON decode failure yields the default retry instruction,
`replanner.py:154-158`), `.error e` when any exception escaped; in that case
the `except` branch at `replanner.py:132-135` falls back to `_simple_retry`. -/
def replan (plan : Plan) (failed_step : Step) (gen : Except String ReplanData)
    (fresh : Nat → String) : Plan :=
  match gen with
  | .ok rd => applyModifications plan failed_step rd fresh
  | .error _ => simpleRetry plan failed_step

-- ━━━━━━━━━━━━━━━━━━━━━━━━━━━━━━━━━━━━━━━━━━━━━━━━━━━━━━━━━━
-- Orchestrator engine (app/orchestrator/engine.py)
-- ━━━━━━━━━━━━━━━━━━━━━━━━━━━━━━━━━━━━━━━━━━━━━━━━━━━━━━━━━━

/-- Replace the plan's copy of a step after an in-place mutation of the step
object (the Python engine mutates the `Step` element of `plan.steps`
directly; step ids are unique within a plan). -/
def planWithStep (plan : Plan) (s : Step) : Plan :=
  { plan with steps := plan.steps.map fun t => if t.step_id == s.step_id then s else t }

/-- Result of the engine's handling of one evaluation verdict: the updated
step, the current plan afterwards, whether a replan was produced, and the
broadcast event types in order. -/
structure StepHandling where
  step : Step
  plan : Plan
  replanned : Bool
  events : List String
deriving Repr

/-- The evaluation-outcome handler of `_execute_plan`, sequential path
(`engine.py:390-496`): on success the step completes with the execution
result stored; on failure or partial the counter is incremented and either
the step returns to pending (counter below ceiling) or it is marked failed
and the replanner is invoked on the current plan, yielding the next plan
version (`PlanRepository.create` persists the replanner's plan unchanged,
`repository.py:155-165`). -/
def handleEvaluation (plan : Plan) (step : Step) (verdict : EvalResult)
    (reasoning : String) (exec_result : Payload) (now : Nat)
    (gen : Except String ReplanData) (fresh : Nat → String) : StepHandling :=
  match verdict with
  | .success =>
    let s := { step with
                 status := .completed, result_payload := some exec_result,
                 completed_at := some now }
    ⟨s, planWithStep plan s, false, ["step_update"]⟩
  | _ =>
    let s1 := { step with retry_count := step.retry_count + 1 }
    if s1.retry_count ≥ s1.max_retries then
      let sF := { s1 with status := .failed, error_message := some reasoning }
      let planF := planWithStep plan sF
      ⟨sF, replan planF sF gen fresh, true, ["step_update", "replanning", "plan_created"]⟩
    else
      let sP := { s1 with status := .pending, error_message := some reasoning }
      ⟨sP, planWithStep plan sP, false, ["step_update"]⟩

/-- Goal-finalization phase of `process_goal` (`engine.py:156-176`): once the
execution loop has returned its final plan, the goal becomes completed with a
`goal_completed` event iff `plan.is_complete()`, and failed with a
`goal_failed` event otherwise. -/
def finalizeGoal (goal_id : String) (plan : Plan) : GoalStatus × List Ev :=
  if plan.is_complete then (GoalStatus.completed, [⟨"goal_completed", goal_id⟩])
  else (GoalStatus.failed, [⟨"goal_failed", goal_id⟩])

/-- Observable outcome of `process_goal`: final goal status, broadcast
events, and how many times each agent strategy was invoked. -/
structure ProcessOutcome where
  status : GoalStatus
  events : List Ev
  plannerCalls : Nat
  executorCalls : Nat
  evaluatorCalls : Nat
deriving DecidableEq, Repr

/-- Evaluation of the `Step(step_id=..., title=..., status="pending")`
constructor calls of the DEMO-SAFE branch (`engine.py:106-107`).  In the
source, `Step.description` and `Step.expected_outcome` are required pydantic
fields with no default (`models.py:88-89`), and the constructor omits both,
so pydantic raises a `ValidationError`; the embedding renders the
construction as a failing computation. -/
def demoStepConstruction (sid title : String) : Except String Step :=
  .error ("ValidationError: 2 validation errors for Step (" ++ sid ++ ", " ++ title ++
    "): description Field required; expected_outcome Field required")

/-- The DEMO-SAFE short-circuit branch of `process_goal` (`engine.py:93-126`)
run under the surrounding `try/except` (`engine.py:181-189`): the goal moves
to planning and a `goal_status` event is broadcast; then the hardcoded
two-step plan is constructed.  When a step construction raises, the outer
handler marks the goal failed and broadcasts an `error` event; were both
constructions to succeed, the scripted happy path would broadcast
`plan_created`, two `in_progress`/`completed` `step_update` pairs and
`goal_completed`.  No planner, executor or evaluator call occurs on any path
of this branch. -/
def processGoalDemoBranch (g : Goal) : ProcessOutcome :=
  let planningEvents : List Ev := [⟨"goal_status", g.id⟩]
  match demoStepConstruction "safe_1" "Simulated Fetch" with
  | .error _ => ⟨.failed, planningEvents ++ [⟨"error", g.id⟩], 0, 0, 0⟩
  | .ok _ =>
    match demoStepConstruction "safe_2" "Simulated Schedule" with
    | .error _ => ⟨.failed, planningEvents ++ [⟨"error", g.id⟩], 0, 0, 0⟩
    | .ok _ =>
      ⟨.completed,
        planningEvents ++ [⟨"plan_created", g.id⟩, ⟨"step_update", g.id⟩,
          ⟨"step_update", g.id⟩, ⟨"step_update", g.id⟩, ⟨"step_update", g.id⟩,
          ⟨"goal_completed", g.id⟩], 0, 0, 0⟩

/-- Top of `process_goal` (`engine.py:85-95`): when the goal's raw text,
upper-cased, contains `"DEMO-SAFE-001"`, the DEMO-SAFE branch runs and
returns; otherwise the normal plan-execute-evaluate pipeline
(`engine.py:128-189`) runs, abstracted here as `normalPath`. -/
def processGoal (g : Goal) (normalPath : Goal → ProcessOutcome) : ProcessOutcome :=
  if containsSeq "DEMO-SAFE-001".data (pyUpper g.raw_input.data) then
    processGoalDemoBranch g
  else normalPath g

-- ━━━━━━━━━━━━━━━━━━━━━━━━━━━━━━━━━━━━━━━━━━━━━━━━━━━━━━━━━━
-- Event bus (Orchestrator._broadcast, engine.py:60-81)
-- ━━━━━━━━━━━━━━━━━━━━━━━━━━━━━━━━━━━━━━━━━━━━━━━━━━━━━━━━━━

/-- What a listener does when invoked with the in-flight event: return
normally, raise, or call `add_event_listener` registering a new listener
(identified by a `Nat` id). -/
inductive ListenerAction
  | ok
  | raises (msg : String)
  | addsListener (newId : Nat)
deriving DecidableEq, Repr

/-- One iteration of the fan-out loop of `_broadcast` (`engine.py:74-81`):
the listener is invoked (appended to `called`); a raise is caught by the
per-listener `except`, logged as a warning, and the loop continues; an
`add_event_listener` call appends to the live listener list
(`engine.py:60-62`), not to the snapshot being iterated. -/
def broadcastStep (beh : Nat → ListenerAction) :
    List Nat × List Nat × List String → Nat → List Nat × List Nat × List String
  | (called, ls, logs), l =>
    match beh l with
    | .ok => (called ++ [l], ls, logs)
    | .raises m => (called ++ [l], ls, logs ++ ["broadcast_error: " ++ m])
    | .addsListener n => (called ++ [l], ls ++ [n], logs)

/-- `Orchestrator._broadcast` (`engine.py:69-81`): take a snapshot of the
listener list under the lock, then invoke each snapshot member in order.
Returns `(called ids, listener list afterwards, warning log)`.  The function
is total: every listener fault is absorbed by the per-listener `except`. -/
def broadcast (beh : Nat → ListenerAction) (listeners : List Nat) :
    List Nat × List Nat × List String :=
  listeners.foldl (broadcastStep beh) ([], listeners, [])

-- ━━━━━━━━━━━━━━━━━━━━━━━━━━━━━━━━━━━━━━━━━━━━━━━━━━━━━━━━━━
-- LLM gateway (app/cognitive/llm/provider.py)
-- ━━━━━━━━━━━━━━━━━━━━━━━━━━━━━━━━━━━━━━━━━━━━━━━━━━━━━━━━━━

/-- Outcome of one `llm.ainvoke` attempt under `asyncio.wait_for`
(`provider.py:126-129`): response text, or a raised error rendered as its
message string (a timeout raises `TimeoutError` and is just another
non-rate-limit error here). -/
inductive InvokeOutcome
  | ok (text : String)
  | err (msg : String)
deriving DecidableEq, Repr

/-- Rate-limit classification of an invocation error (`provider.py:132-133`):
the lower-cased message contains "429", "resourceexhausted" or
"too many requests". -/
def isRateLimit (msg : String) : Bool :=
  containsSeq "429".data (pyLower msg.data) ||
  containsSeq "resourceexhausted".data (pyLower msg.data) ||
  containsSeq "too many requests".data (pyLower msg.data)

/-- The in-provider attempt loop `for attempt in range(max_retries)`
(`provider.py:123-139`), with fuel equal to the remaining range; returns the
result (`.ok` response, or `.error` for the re-raised exception) and the list
of backoff delays slept, in seconds, in order (`delay_time = 5 * (attempt+1)`,
`provider.py:135-137`).  The loop retries only when the error is
rate-limit-class and `attempt < max_retries - 1`; the fuel-exhausted default
is unreachable for `maxRetries ≥ 1` because the last attempt either breaks or
re-raises. -/
def providerLoopAux (behavior : Nat → InvokeOutcome) (maxRetries : Nat) :
    Nat → Nat → Except String String × List Nat
  | _, 0 => (.error "retry range exhausted", [])
  | attempt, fuel + 1 =>
    match behavior attempt with
    | .ok t => (.ok t, [])
    | .err m =>
      if isRateLimit m && decide (attempt < maxRetries - 1) then
        let r := providerLoopAux behavior maxRetries (attempt + 1) fuel
        (r.1, 5 * (attempt + 1) :: r.2)
      else (.error m, [])

/-- One provider's whole attempt loop with the hardcoded `max_retries = 3`
(`provider.py:123`), starting at attempt 0. -/
def providerLoop (behavior : Nat → InvokeOutcome) : Except String String × List Nat :=
  providerLoopAux behavior 3 0 3

/-- `AgentLog` (`models.py:156-171`); the UUID `id` and timestamp are
dropped, and the token/latency counters are abstracted as their
zeros-when-unavailable defaults. -/
structure AgentLog where
  goal_id : String
  agent_type : String
  provider : String
  model : String
  prompt_summary : String
  response_summary : String
  tokens_in : Nat := 0
  tokens_out : Nat := 0
  latency_ms : Nat := 0
  error : Option String := none
deriving DecidableEq, Repr

/-- Python string slice `s[:n]`. -/
def pyTake (n : Nat) (s : String) : String := String.mk (s.data.take n)

/-- One provider of the fallback chain: its enum value name, its configured
model name, and the behaviour of its invocation attempts. -/
structure ProviderSpec where
  name : String
  modelName : String
  behavior : Nat → InvokeOutcome

/-- The `AgentLog` built on a successful provider call (`provider.py:145-155`)
with truncated prompt/response summaries. -/
def mkSuccessLog (goalId agentType prompt : String) (p : ProviderSpec) (text : String) :
    AgentLog :=
  { goal_id := goalId, agent_type := agentType, provider := p.name, model := p.modelName,
    prompt_summary := pyTake 200 prompt, response_summary := pyTake 300 text }

/-- The `AgentLog` constructed on the all-providers-failed path
(`provider.py:182-190`): a local value carrying the aggregate error, built
immediately before the `raise RuntimeError(error_msg)` at `provider.py:191`
— it is neither appended to any repository nor returned. -/
def allFailedLog (goalId agentType prompt : String) (lastErr : Option String) : AgentLog :=
  { goal_id := goalId, agent_type := agentType, provider := "none", model := "none",
    prompt_summary := pyTake 200 prompt, response_summary := "",
    error := some ("All LLM providers failed. Last error: " ++ lastErr.getD "None") }

/-- The provider fallback loop of `LLMGateway.generate` (`provider.py:107-191`):
providers are tried in order; a provider whose attempt loop re-raises becomes
`last_error` and the next provider is tried (`provider.py:165-176`); when the
chain is exhausted the call raises `RuntimeError` whose message embeds the
last underlying error's detail (`provider.py:178-191`, `repr(None) = "None"`
when the chain was empty). -/
def generateAux (goalId agentType prompt : String) :
    List ProviderSpec → Option String → Except String (String × AgentLog)
  | [], lastErr =>
      .error ("All LLM providers failed. Last error: " ++ lastErr.getD "None")
  | p :: rest, _lastErr =>
      match (providerLoop p.behavior).1 with
      | .ok text => .ok (text, mkSuccessLog goalId agentType prompt p text)
      | .error m => generateAux goalId agentType prompt rest (some m)

/-- `LLMGateway.generate` (`provider.py:96-191`) over an explicit fallback
chain (the instance's chain is `[primary, fallback, tertiary]`,
`provider.py:83-87`). -/
def generate (chain : List ProviderSpec) (goalId agentType prompt : String) :
    Except String (String × AgentLog) :=
  generateAux goalId agentType prompt chain none

/-- Caller-side recording of generation logs (pattern at
`replanner.py:111-119` and in the other three agents): the returned log is
appended to the AgentLog repository after `generate` returns; when `generate`
raises, control passes to the caller's exception handler and no append runs. -/
def recordedLogs (r : Except String (String × AgentLog)) : List AgentLog :=
  match r with
  | .ok x => [x.2]
  | .error _ => []

-- ━━━━━━━━━━━━━━━━━━━━━━━━━━━━━━━━━━━━━━━━━━━━━━━━━━━━━━━━━━
-- Tool registry (app/tools/registry.py)
-- ━━━━━━━━━━━━━━━━━━━━━━━━━━━━━━━━━━━━━━━━━━━━━━━━━━━━━━━━━━

/-- The machine-readable payload attached to a `ToolExecutionError`
(`registry.py:92-97`, `registry.py:102-107`). -/
structure ErrPayload where
  error_code : String
  component : String
  trace : String
  agent_recovery_action : String
deriving DecidableEq, Repr

/-- The two exception kinds `execute_tool` can raise: the plain `ValueError`
of a failed lookup (`registry.py:67` — message only, no structured payload)
and the `ToolExecutionError` carrying a structured payload
(`registry.py:24-29`). -/
inductive ToolError
  | valueError (msg : String)
  | toolExecutionError (msg : String) (payload : ErrPayload)
deriving DecidableEq, Repr

/-- Behaviour of a registered handler under `asyncio.wait_for(run(), 15.0)`
(`registry.py:76-84`): a result, a timeout, or any other raised fault
(rendered as its message; the traceback text is abstracted by the message). -/
inductive ToolOutcome
  | ok (result : Payload)
  | timeout
  | raises (msg : String)
deriving Repr

/-- One `_TOOL_REGISTRY` entry (`registry.py:38-44`); the parameter schema is
dropped (no claim reads it) and the handler is abstracted by its outcome. -/
structure Tool where
  name : String
  description : String := ""
  outcome : ToolOutcome

/-- `execute_tool` (`registry.py:63-108`): dict lookup by name (registration
overwrites, so names are unique and `find?` is the dict `get`); a missing
name raises the plain `ValueError`; a timeout raises `ToolExecutionError`
with the `TOOL_TIMEOUT` payload; any other fault raises `ToolExecutionError`
with the `TOOL_EXECUTION_ERROR` payload. -/
def execute_tool (registry : List Tool) (name : String) : Except ToolError Payload :=
  match registry.find? fun t => t.name == name with
  | none =>
      .error (.valueError ("Tool '" ++ name ++ "' not found in registry. Available: [" ++
        String.intercalate ", " (registry.map fun t => "'" ++ t.name ++ "'") ++ "]"))
  | some t =>
    match t.outcome with
    | .ok r => .ok r
    | .timeout =>
      .error (.toolExecutionError ("Tool '" ++ name ++ "' timed out after 15.0 seconds")
        { error_code := "TOOL_TIMEOUT", component := "Tool_" ++ name,
          trace := "Tool '" ++ name ++ "' timed out after 15.0 seconds",
          agent_recovery_action := "Switch to alternative tool or replan" })
    | .raises m =>
      .error (.toolExecutionError m
        { error_code := "TOOL_EXECUTION_ERROR", component := "Tool_" ++ name,
          trace := m,
          agent_recovery_action := "Replanner must generate alternative action." })

-- ━━━━━━━━━━━━━━━━━━━━━━━━━━━━━━━━━━━━━━━━━━━━━━━━━━━━━━━━━━
-- Concrete fixtures (used by closed witness statements)
-- ━━━━━━━━━━━━━━━━━━━━━━━━━━━━━━━━━━━━━━━━━━━━━━━━━━━━━━━━━━

/-- A completed step fixture. -/
def stepDone : Step :=
  { step_id := "s1", title := "fetch", description := "fetch data",
    expected_outcome := "data", status := .completed,
    result_payload := some [("k", "v")], completed_at := some 7 }

/-- A failed step fixture (counter at its ceiling, as when the engine invokes
the replanner). -/
def stepBroken : Step :=
  { step_id := "s2", title := "schedule", description := "build schedule",
    expected_outcome := "schedule", status := .failed, depends_on := ["s1"],
    retry_count := 3, error_message := some "bad output" }

/-- A pending step fixture whose single dependency id matches no step. -/
def stepDangling : Step :=
  { step_id := "s3", title := "summarize", description := "summarize",
    expected_outcome := "summary", depends_on := ["nope"] }

/-- A plan holding the completed and the failed fixture steps. -/
def planMixed : Plan :=
  { goal_id := "g", version := 1, steps := [stepDone, stepBroken] }

/-- A plan holding only the dangling-dependency fixture step. -/
def planDangling : Plan :=
  { goal_id := "g", version := 1, steps := [stepDangling] }

/-- A plan whose only step is completed. -/
def planDone : Plan :=
  { goal_id := "g", version := 1, steps := [stepDone] }

/-- A provider fallback chain in which every invocation attempt of every
provider raises (the last with detail "boom final"). -/
def failChain : List ProviderSpec :=
  [{ name := "ollama", modelName := "llama3", behavior := fun _ => .err "conn refused a" },
   { name := "gemini", modelName := "gemini-2.0-flash", behavior := fun _ => .err "conn refused b" },
   { name := "openai", modelName := "gpt-4o-mini", behavior := fun _ => .err "boom final" }]

/-- Provider behaviour fixture: the first attempt hits a rate limit, the
second succeeds. -/
def rlBehavior : Nat → InvokeOutcome :=
  fun n => if n == 0 then .err "HTTP 429 Too Many Requests" else .ok "pong"

/-- Listener behaviour fixture: listener 1 raises, listener 2 registers a new
listener 5, everyone else returns normally. -/
def busBehavior : Nat → ListenerAction :=
  fun n => if n == 1 then .raises "boom" else if n == 2 then .addsListener 5 else .ok

/-- A registered tool whose handler always exceeds the 15-second bound. -/
def sleepyTool : Tool := { name := "sleepy", description := "sleeps", outcome := .timeout }

/-- A one-entry tool registry fixture. -/
def toolFixtures : List Tool := [sleepyTool]

/-- A goal whose raw text names the DEMO-SAFE token (mixed case). -/
def demoGoal : Goal := { id := "g1", user_id := "u1", raw_input := "please run Demo-Safe-001" }

end Solasta

namespace Solasta

/-- C1: `get_ready_steps` returns exactly the pending steps of the plan every
one of whose dependency ids names a completed-or-skipped step of the same
plan; consequently a step with a dependency id matching no step of the plan
is never returned. -/
theorem get_ready_steps_spec (p : Plan) :
    (∀ s : Step, s ∈ p.get_ready_steps ↔
        s ∈ p.steps ∧ s.status = .pending ∧
          ∀ dep ∈ s.depends_on, ∃ t ∈ p.steps,
            t.step_id = dep ∧ (t.status = .completed ∨ t.status = .skipped)) ∧
    (∀ s ∈ p.steps, (∃ dep ∈ s.depends_on, ∀ t ∈ p.steps, t.step_id ≠ dep) →
        s ∉ p.get_ready_steps) := by
  have hmain : ∀ s : Step, s ∈ p.get_ready_steps ↔
      s ∈ p.steps ∧ s.status = .pending ∧
        ∀ dep ∈ s.depends_on, ∃ t ∈ p.steps,
          t.step_id = dep ∧ (t.status = .completed ∨ t.status = .skipped) := by
    intro s
    unfold Plan.get_ready_steps
    simp only [List.mem_filter, Bool.and_eq_true, beq_iff_eq, List.all_eq_true,
      List.contains, List.elem_iff, List.mem_map, List.mem_filter, Bool.or_eq_true,
      decide_eq_true_eq]
    constructor
    · rintro ⟨hmem, hpend, hdeps⟩
      refine ⟨hmem, hpend, ?_⟩
      intro dep hdep
      obtain ⟨t, ⟨htmem, htstat⟩, htid⟩ := hdeps dep hdep
      exact ⟨t, htmem, htid, htstat⟩
    · rintro ⟨hmem, hpend, hdeps⟩
      refine ⟨hmem, hpend, ?_⟩
      intro dep hdep
      obtain ⟨t, htmem, htid, htstat⟩ := hdeps dep hdep
      exact ⟨t, ⟨htmem, htstat⟩, htid⟩
  refine ⟨hmain, ?_⟩
  rintro s hs ⟨dep, hdep, hnone⟩ hready
  obtain ⟨-, -, hdeps⟩ := (hmain s).mp hready
  obtain ⟨t, htmem, htid, -⟩ := hdeps dep hdep
  exact hnone t htmem htid

end Solasta

namespace Solasta

/-- C3: `is_complete` holds iff every step is completed or skipped (a failed
or pending step falsifies it), and the finalization phase of `process_goal`
transitions the goal to completed with a `goal_completed` event exactly when
`is_complete` holds for the final plan, and to failed with a `goal_failed`
event otherwise. -/
theorem is_complete_finalization (p : Plan) (gid : String) :
    (p.is_complete = true ↔ ∀ s ∈ p.steps, s.status = .completed ∨ s.status = .skipped) ∧
    (∀ s ∈ p.steps, s.status = .failed ∨ s.status = .pending → p.is_complete = false) ∧
    ((finalizeGoal gid p).1 = .completed ↔ p.is_complete = true) ∧
    (p.is_complete = true → (finalizeGoal gid p).2 = [⟨"goal_completed", gid⟩]) ∧
    ((finalizeGoal gid p).1 = .failed ↔ p.is_complete = false) ∧
    (p.is_complete = false → (finalizeGoal gid p).2 = [⟨"goal_failed", gid⟩]) := by
  have hchar : p.is_complete = true ↔
      ∀ s ∈ p.steps, s.status = .completed ∨ s.status = .skipped := by
    simp [Plan.is_complete, List.all_eq_true]
  refine ⟨hchar, ?_, ?_, ?_, ?_, ?_⟩
  · intro s hs hstat
    cases hpc : p.is_complete with
    | false => rfl
    | true =>
      exfalso
      rcases hchar.mp hpc s hs with h | h <;> rcases hstat with h' | h' <;>
        rw [h'] at h <;> exact StepStatus.noConfusion h
  all_goals unfold finalizeGoal
  all_goals cases hpc : p.is_complete <;> simp [hpc]

/-- Witness for C3 at a concrete one-step plan whose only step is completed. -/
theorem is_complete_finalization_witness :
    (finalizeGoal "g" planDone).1 = GoalStatus.completed :=
  ((is_complete_finalization planDone "g").2.2.1).mpr (by decide)

end Solasta

namespace Solasta

/-- Witness for C1: the fixture step with a dangling dependency id is not in
the ready set of its plan. -/
theorem get_ready_steps_spec_witness : stepDangling ∉ planDangling.get_ready_steps :=
  (get_ready_steps_spec planDangling).2 stepDangling (by decide)
    ⟨"nope", by decide, by decide⟩

/-- Both replanner outputs carry `version = old + 1` and `is_active = true`
(`replanner.py:232-237`, `replanner.py:265-270`). -/
theorem replan_version_active (p : Plan) (fs : Step) (gen : Except String ReplanData)
    (fresh : Nat → String) :
    (replan p fs gen fresh).version = p.version + 1 ∧
      (replan p fs gen fresh).is_active = true := by
  cases gen with
  | ok rd => by_cases h : rd.strategy == "insert" <;> simp [replan, applyModifications, h]
  | error e => simp [replan, simpleRetry]

/-- C2: on a failure or partial evaluation outcome the engine increments the
step's retry counter; while the counter is below the ceiling the step returns
to pending with the incremented counter preserved and no replan occurs; once
the counter reaches the ceiling the step becomes failed, replanning is
triggered, and the produced plan's version is the old version plus one with
its active flag set. -/
theorem retry_replan_handling (plan : Plan) (step : Step) (verdict : EvalResult)
    (reasoning : String) (er : Payload) (now : Nat) (gen : Except String ReplanData)
    (fresh : Nat → String) (hv : verdict = .failure ∨ verdict = .partialSuccess) :
    ((handleEvaluation plan step verdict reasoning er now gen fresh).step.retry_count
        = step.retry_count + 1) ∧
    (step.retry_count + 1 < step.max_retries →
      (handleEvaluation plan step verdict reasoning er now gen fresh).step.status
          = .pending ∧
      (handleEvaluation plan step verdict reasoning er now gen fresh).replanned = false ∧
      (handleEvaluation plan step verdict reasoning er now gen fresh).plan.version
          = plan.version) ∧
    (step.retry_count + 1 ≥ step.max_retries →
      (handleEvaluation plan step verdict reasoning er now gen fresh).step.status
          = .failed ∧
      (handleEvaluation plan step verdict reasoning er now gen fresh).replanned = true ∧
      (handleEvaluation plan step verdict reasoning er now gen fresh).plan.version
          = plan.version + 1 ∧
      (handleEvaluation plan step verdict reasoning er now gen fresh).plan.is_active
          = true) := by
  have key : handleEvaluation plan step verdict reasoning er now gen fresh =
      (if step.retry_count + 1 ≥ step.max_retries then
        let sF : Step := { step with
                             retry_count := step.retry_count + 1,
                             status := .failed, error_message := some reasoning }
        ⟨sF, replan (planWithStep plan sF) sF gen fresh, true,
          ["step_update", "replanning", "plan_created"]⟩
      else
        let sP : Step := { step with
                             retry_count := step.retry_count + 1,
                             status := .pending, error_message := some reasoning }
        ⟨sP, planWithStep plan sP, false, ["step_update"]⟩) := by
    rcases hv with rfl | rfl <;> rfl
  rw [key]
  by_cases h : step.retry_count + 1 ≥ step.max_retries
  · rw [if_pos h]
    refine ⟨rfl, fun hlt => absurd hlt (by omega), fun _ => ⟨rfl, rfl, ?_, ?_⟩⟩
    · exact (replan_version_active _ _ gen fresh).1
    · exact (replan_version_active _ _ gen fresh).2
  · rw [if_neg h]
    exact ⟨rfl, fun _ => ⟨rfl, rfl, rfl⟩, fun hge => absurd hge h⟩

/-- Witness for C2 at the failed fixture step, whose next failure reaches the
ceiling: the handler fails the step and produces plan version 2. -/
theorem retry_replan_handling_witness :
    (handleEvaluation planMixed stepBroken .failure "still bad" [] 9
        (Except.error "llm down") (fun _ => "f")).plan.version = 2 :=
  ((retry_replan_handling planMixed stepBroken .failure "still bad" [] 9
      (Except.error "llm down") (fun _ => "f") (Or.inl rfl)).2.2 (by decide)).2.2.1

end Solasta

namespace Solasta

/-- The simple-retry rule reaches the failed terminal within
`max_retries - retry_count + 1` applications. -/
theorem simpleRetryStep_iter_failed :
    ∀ (d : Nat) (s : Step), s.max_retries - s.retry_count = d →
      (simpleRetryStep^[d + 1] s).status = .failed := by
  intro d
  induction d with
  | zero =>
    intro s h
    have hge : s.retry_count ≥ s.max_retries := by omega
    simp [simpleRetryStep, hge]
  | succ n ih =>
    intro s h
    have hlt : ¬ s.retry_count ≥ s.max_retries := by omega
    rw [Function.iterate_succ_apply]
    have hstep : simpleRetryStep s =
        { s with
          status := .pending, retry_count := s.retry_count + 1,
          error_message := none, result_payload := none } := by
      simp [simpleRetryStep, hlt]
    rw [hstep]
    exact ih _ (by simp; omega)

/-- C8: when replan generation raises, the replanner falls back to the
simple-retry policy; under that policy the counter never exceeds its ceiling
unless the step has been forced to failed, a step whose ceiling is exhausted
is immediately marked failed with the terminal hard-cap message, and iterating
the rule reaches the failed terminal within ceiling-minus-counter-plus-one
applications, so an exhausted step cannot re-enter the loop forever. -/
theorem simple_retry_fallback (plan : Plan) (fs : Step) (e : String)
    (fresh : Nat → String) (s : Step) :
    replan plan fs (.error e) fresh = simpleRetry plan fs ∧
    ((simpleRetryStep s).retry_count ≤ s.max_retries ∨
      (simpleRetryStep s).status = .failed) ∧
    (s.retry_count ≥ s.max_retries →
      (simpleRetryStep s).status = .failed ∧
      (simpleRetryStep s).error_message =
        some ("Hard cap reached: " ++ toString s.retry_count ++
          " retries exhausted. Terminating loop.")) ∧
    (simpleRetryStep^[s.max_retries - s.retry_count + 1] s).status = .failed := by
  refine ⟨rfl, ?_, ?_, simpleRetryStep_iter_failed _ s rfl⟩
  · by_cases h : s.retry_count ≥ s.max_retries
    · right; simp [simpleRetryStep, h]
    · left
      have : ¬ s.retry_count ≥ s.max_retries := h
      simp [simpleRetryStep, this]
      omega
  · intro h
    exact ⟨by simp [simpleRetryStep, h], by simp [simpleRetryStep, h]⟩

/-- Witness for C8 at the failed fixture step (counter 3 = ceiling 3): one
simple-retry application marks it failed. -/
theorem simple_retry_fallback_witness : (simpleRetryStep stepBroken).status = .failed :=
  ((simple_retry_fallback planMixed stepBroken "llm down" (fun _ => "f")
      stepBroken).2.2.1 (by decide)).1

end Solasta

namespace Solasta

/-- A completed step that is not the failed one is copied verbatim by the
revise loop of `_apply_modifications` (`replanner.py:177-201`). -/
theorem reviseStep_completed_fixed (rd : ReplanData) (fs s : Step)
    (hc : s.status = .completed) (hid : s.step_id ≠ fs.step_id) :
    reviseStep rd fs s = s := by
  unfold reviseStep
  cases modById rd.modified_steps s.step_id <;> simp [hc, hid]

/-- The post-insert fixup leaves any step other than the failed one alone
(`replanner.py:223-230`). -/
theorem insertFixup_ne (fs : Step) (ids : List String) (s : Step)
    (hid : s.step_id ≠ fs.step_id) : insertFixup fs ids s = s := by
  simp [insertFixup, hid]

/-- The step list produced by `_apply_modifications`, by strategy. -/
theorem applyModifications_steps (p : Plan) (fs : Step) (rd : ReplanData)
    (fresh : Nat → String) :
    (applyModifications p fs rd fresh).steps =
      if rd.strategy == "insert" then
        (p.steps.map (reviseStep rd fs) ++ insertedSteps fs fresh rd.modified_steps).map
          (insertFixup fs ((insertedSteps fs fresh rd.modified_steps).map fun s => s.step_id))
      else p.steps.map (reviseStep rd fs) := by
  unfold applyModifications
  by_cases h : rd.strategy == "insert" <;> simp [h]

/-- C9: under any replan — `_apply_modifications` with any strategy and any
modification list, and the `_simple_retry` fallback — every completed step of
the old plan appears in the new plan version unchanged in all of its fields,
given the engine-context invariant that the failed step passed to the
replanner is not one of the completed steps (the engine always passes a step
it has just marked failed, and step ids are unique within a plan). -/
theorem replan_preserves_completed (plan : Plan) (fs : Step) (rd : ReplanData)
    (fresh : Nat → String)
    (hctx : ∀ s ∈ plan.steps, s.status = .completed → s.step_id ≠ fs.step_id) :
    ∀ s ∈ plan.steps, s.status = .completed →
      s ∈ (applyModifications plan fs rd fresh).steps ∧
      s ∈ (simpleRetry plan fs).steps := by
  intro s hs hc
  have hid := hctx s hs hc
  constructor
  · rw [applyModifications_steps]
    have hbase : s ∈ plan.steps.map (reviseStep rd fs) := by
      have hmem := List.mem_map_of_mem (reviseStep rd fs) hs
      rwa [reviseStep_completed_fixed rd fs s hc hid] at hmem
    by_cases hins : rd.strategy == "insert"
    · rw [if_pos hins]
      have happ : s ∈ plan.steps.map (reviseStep rd fs) ++
          insertedSteps fs fresh rd.modified_steps := List.mem_append_left _ hbase
      have hmem := List.mem_map_of_mem
        (insertFixup fs ((insertedSteps fs fresh rd.modified_steps).map fun t => t.step_id))
        happ
      rwa [insertFixup_ne fs _ s hid] at hmem
    · rw [if_neg hins]
      exact hbase
  · unfold simpleRetry
    have hmem := List.mem_map_of_mem
      (fun t : Step => if t.step_id == fs.step_id then simpleRetryStep t else t) hs
    simpa [hid] using hmem

/-- Witness for C9: the completed fixture step survives both a default-data
`_apply_modifications` replan and a `_simple_retry` replan of the mixed-plan
fixture unchanged. -/
theorem replan_preserves_completed_witness :
    stepDone ∈ (applyModifications planMixed stepBroken ⟨"retry", []⟩ fun _ => "f").steps ∧
    stepDone ∈ (simpleRetry planMixed stepBroken).steps :=
  replan_preserves_completed planMixed stepBroken ⟨"retry", []⟩ (fun _ => "f")
    (by decide) stepDone (by decide) (by decide)

end Solasta

namespace Solasta

/-- Every id of the snapshot is invoked, in order, after whatever was already
called — independent of listener behaviour. -/
theorem broadcast_foldl_called (beh : Nat → ListenerAction) :
    ∀ (todo : List Nat) (called ls : List Nat) (logs : List String),
      (todo.foldl (broadcastStep beh) (called, ls, logs)).1 = called ++ todo := by
  intro todo
  induction todo with
  | nil => intro c ls lg; simp
  | cons h t ih =>
    intro c ls lg
    rw [List.foldl_cons]
    cases hb : beh h <;>
      simp [broadcastStep, hb, ih, List.append_assoc]

/-- The listener list only grows during fan-out. -/
theorem broadcast_foldl_mono (beh : Nat → ListenerAction) :
    ∀ (todo : List Nat) (called ls : List Nat) (logs : List String),
      ls ⊆ (todo.foldl (broadcastStep beh) (called, ls, logs)).2.1 := by
  intro todo
  induction todo with
  | nil => intro c ls lg; simp
  | cons h t ih =>
    intro c ls lg
    rw [List.foldl_cons]
    cases hb : beh h <;> simp only [broadcastStep, hb]
    · exact ih _ _ _
    · exact ih _ _ _
    · exact fun x hx => ih _ _ _ (List.mem_append_left _ hx)

/-- A listener registered during fan-out is in the final listener list. -/
theorem broadcast_foldl_added (beh : Nat → ListenerAction) :
    ∀ (todo : List Nat) (called ls : List Nat) (logs : List String) (l n : Nat),
      l ∈ todo → beh l = .addsListener n →
      n ∈ (todo.foldl (broadcastStep beh) (called, ls, logs)).2.1 := by
  intro todo
  induction todo with
  | nil => intro _ _ _ _ _ hl; cases hl
  | cons h t ih =>
    intro c ls lg l n hl hb
    rw [List.foldl_cons]
    rcases List.mem_cons.mp hl with rfl | hl'
    · rw [show broadcastStep beh (c, ls, lg) l = (c ++ [l], ls ++ [n], lg) by
        simp [broadcastStep, hb]]
      exact broadcast_foldl_mono beh t _ _ _ (List.mem_append_right _ (by simp))
    · cases hb' : beh h <;> simp only [broadcastStep, hb'] <;> exact ih _ _ _ _ _ hl' hb

/-- The warning log only grows during fan-out. -/
theorem broadcast_foldl_logs_mono (beh : Nat → ListenerAction) :
    ∀ (todo : List Nat) (called ls : List Nat) (logs : List String),
      logs ⊆ (todo.foldl (broadcastStep beh) (called, ls, logs)).2.2 := by
  intro todo
  induction todo with
  | nil => intro c ls lg; simp
  | cons h t ih =>
    intro c ls lg
    rw [List.foldl_cons]
    cases hb : beh h <;> simp only [broadcastStep, hb]
    · exact ih _ _ _
    · exact fun x hx => ih _ _ _ (List.mem_append_left _ hx)
    · exact ih _ _ _

/-- A raising listener contributes its warning entry to the log. -/
theorem broadcast_foldl_raise (beh : Nat → ListenerAction) :
    ∀ (todo : List Nat) (called ls : List Nat) (logs : List String) (l : Nat) (m : String),
      l ∈ todo → beh l = .raises m →
      ("broadcast_error: " ++ m) ∈ (todo.foldl (broadcastStep beh) (called, ls, logs)).2.2 := by
  intro todo
  induction todo with
  | nil => intro _ _ _ _ _ hl; cases hl
  | cons h t ih =>
    intro c ls lg l m hl hb
    rw [List.foldl_cons]
    rcases List.mem_cons.mp hl with rfl | hl'
    · rw [show broadcastStep beh (c, ls, lg) l =
          (c ++ [l], ls, lg ++ ["broadcast_error: " ++ m]) by simp [broadcastStep, hb]]
      exact broadcast_foldl_logs_mono beh t _ _ _ (List.mem_append_right _ (by simp))
    · cases hb' : beh h <;> simp only [broadcastStep, hb'] <;> exact ih _ _ _ _ _ hl' hb

/-- C10: `_broadcast` invokes exactly the snapshot of listeners present at
publish time, in order, whatever the listeners do: a listener registered
mid-broadcast is in the listener list afterwards but is never invoked with
the in-flight event, and a raising listener's fault is logged as a warning
while every other snapshot member is still invoked; the fan-out itself is a
total function (every listener fault is absorbed). -/
theorem broadcast_snapshot_delivery (beh : Nat → ListenerAction) (listeners : List Nat) :
    (broadcast beh listeners).1 = listeners ∧
    (∀ n, n ∉ listeners → n ∉ (broadcast beh listeners).1) ∧
    (∀ l ∈ listeners, ∀ n, beh l = .addsListener n →
      n ∈ (broadcast beh listeners).2.1) ∧
    (∀ l ∈ listeners, ∀ m, beh l = .raises m →
      ("broadcast_error: " ++ m) ∈ (broadcast beh listeners).2.2) := by
  have hcalled : (broadcast beh listeners).1 = listeners := by
    have := broadcast_foldl_called beh listeners [] listeners []
    simpa [broadcast] using this
  refine ⟨hcalled, ?_, ?_, ?_⟩
  · intro n hn; rw [hcalled]; exact hn
  · intro l hl n hb
    exact broadcast_foldl_added beh listeners [] listeners [] l n hl hb
  · intro l hl m hb
    exact broadcast_foldl_raise beh listeners [] listeners [] l m hl hb

/-- Witness for C10 at the bus fixture: listeners 1 (raises), 2 (registers
listener 5) and 3 are all invoked, 5 is not invoked but is registered
afterwards, and the raise is logged. -/
theorem broadcast_snapshot_delivery_witness :
    (broadcast busBehavior [1, 2, 3]).1 = [1, 2, 3] ∧
    (5 : Nat) ∉ (broadcast busBehavior [1, 2, 3]).1 ∧
    (5 : Nat) ∈ (broadcast busBehavior [1, 2, 3]).2.1 ∧
    ("broadcast_error: " ++ "boom") ∈ (broadcast busBehavior [1, 2, 3]).2.2 :=
  ⟨(broadcast_snapshot_delivery busBehavior [1, 2, 3]).1,
   (broadcast_snapshot_delivery busBehavior [1, 2, 3]).2.1 5 (by decide),
   (broadcast_snapshot_delivery busBehavior [1, 2, 3]).2.2.1 2 (by decide) 5 (by decide),
   (broadcast_snapshot_delivery busBehavior [1, 2, 3]).2.2.2 1 (by decide) "boom" (by decide)⟩

end Solasta

namespace Solasta

/-- C7: the in-provider attempt loop makes at most three invocations; an
extra attempt happens only after a rate-limit-class error, with backoff
delays 5·(attempt+1) seconds — 5s then 10s, linear in the attempt number;
a non-rate-limit error ends the provider's loop at once with that error
re-raised (so the gateway's outer loop moves to the next provider); and a
third-attempt error is re-raised regardless of its class. -/
theorem provider_retry_policy (b : Nat → InvokeOutcome) :
    (∀ t, b 0 = .ok t → providerLoop b = (.ok t, [])) ∧
    (∀ m, b 0 = .err m → isRateLimit m = false → providerLoop b = (.error m, [])) ∧
    (∀ m t, b 0 = .err m → isRateLimit m = true → b 1 = .ok t →
      providerLoop b = (.ok t, [5])) ∧
    (∀ m m', b 0 = .err m → isRateLimit m = true → b 1 = .err m' →
      isRateLimit m' = false → providerLoop b = (.error m', [5])) ∧
    (∀ m m' t, b 0 = .err m → isRateLimit m = true → b 1 = .err m' →
      isRateLimit m' = true → b 2 = .ok t → providerLoop b = (.ok t, [5, 10])) ∧
    (∀ m m' m'', b 0 = .err m → isRateLimit m = true → b 1 = .err m' →
      isRateLimit m' = true → b 2 = .err m'' → providerLoop b = (.error m'', [5, 10])) := by
  refine ⟨?_, ?_, ?_, ?_, ?_, ?_⟩
  · intro t h0
    simp [providerLoop, providerLoopAux, h0]
  · intro m h0 hr0
    simp [providerLoop, providerLoopAux, h0, hr0]
  · intro m t h0 hr0 h1
    simp [providerLoop, providerLoopAux, h0, hr0, h1]
  · intro m m' h0 hr0 h1 hr1
    simp [providerLoop, providerLoopAux, h0, hr0, h1, hr1]
  · intro m m' t h0 hr0 h1 hr1 h2
    simp [providerLoop, providerLoopAux, h0, hr0, h1, hr1, h2]
  · intro m m' m'' h0 hr0 h1 hr1 h2
    simp [providerLoop, providerLoopAux, h0, hr0, h1, hr1, h2]

/-- Witness for C7 at the rate-limited fixture behaviour: the first attempt's
429 error is retried after a 5-second backoff and the second attempt's
response is returned. -/
theorem provider_retry_policy_witness :
    providerLoop rlBehavior = (.ok "pong", [5]) :=
  (provider_retry_policy rlBehavior).2.2.1 "HTTP 429 Too Many Requests" "pong"
    rfl (by decide) rfl

end Solasta

namespace Solasta

/-- C5: evaluated on a chain whose three providers all fail, `generate`
raises the aggregate error preserving the last provider's error detail, but
no AgentLog is recorded: the caller-side append never runs because the call
raised, and the log value the gateway builds on this path — which does carry
the aggregate error — is a dead local, neither returned nor appended
(`provider.py:182-191`). -/
theorem all_providers_failed_log_dropped :
    generate failChain "g1" "planner" "hello" =
      .error "All LLM providers failed. Last error: boom final" ∧
    recordedLogs (generate failChain "g1" "planner" "hello") = [] ∧
    (allFailedLog "g1" "planner" "hello" (some "boom final")).error =
      some "All LLM providers failed. Last error: boom final" := by
  refine ⟨rfl, rfl, rfl⟩

/-- C6 counterexample: looking up the unregistered capability name "ghost"
in an empty registry does not yield a structured error carrying the
`NOT_FOUND` code — it raises the plain `ValueError` of `registry.py:67`. -/
theorem execute_tool_not_found_unstructured :
    ¬ ∃ m payload, execute_tool [] "ghost" =
        .error (.toolExecutionError m payload) ∧ payload.error_code = "NOT_FOUND" := by
  rintro ⟨m, payload, h, -⟩
  simp [execute_tool] at h

/-- C6 (amended): a failed lookup raises the plain (unstructured)
`ValueError`, distinct in kind from the structured execution failures; a
timeout raises `ToolExecutionError` whose payload carries error code
`TOOL_TIMEOUT`, the originating capability, a trace and a suggested recovery
action; and any other fault is normalized into the same structured shape
with code `TOOL_EXECUTION_ERROR`. -/
theorem execute_tool_error_taxonomy (registry : List Tool) (name : String) :
    (registry.find? (fun t => t.name == name) = none →
      ∃ m, execute_tool registry name = .error (.valueError m)) ∧
    (∀ tl, registry.find? (fun t => t.name == name) = some tl → tl.outcome = .timeout →
      execute_tool registry name = .error (.toolExecutionError
        ("Tool '" ++ name ++ "' timed out after 15.0 seconds")
        { error_code := "TOOL_TIMEOUT", component := "Tool_" ++ name,
          trace := "Tool '" ++ name ++ "' timed out after 15.0 seconds",
          agent_recovery_action := "Switch to alternative tool or replan" })) ∧
    (∀ tl m, registry.find? (fun t => t.name == name) = some tl → tl.outcome = .raises m →
      execute_tool registry name = .error (.toolExecutionError m
        { error_code := "TOOL_EXECUTION_ERROR", component := "Tool_" ++ name,
          trace := m,
          agent_recovery_action := "Replanner must generate alternative action." })) := by
  refine ⟨?_, ?_, ?_⟩
  · intro h
    refine ⟨"Tool '" ++ name ++ "' not found in registry. Available: [" ++
      String.intercalate ", " (registry.map fun t => "'" ++ t.name ++ "'") ++ "]", ?_⟩
    simp [execute_tool, h]
  · intro tl h ho
    simp [execute_tool, h, ho]
  · intro tl m h ho
    simp [execute_tool, h, ho]

/-- Witness for the amended C6 at the timeout fixture tool. -/
theorem execute_tool_error_taxonomy_witness :
    execute_tool toolFixtures "sleepy" = .error (.toolExecutionError
      ("Tool '" ++ "sleepy" ++ "' timed out after 15.0 seconds")
      { error_code := "TOOL_TIMEOUT", component := "Tool_" ++ "sleepy",
        trace := "Tool '" ++ "sleepy" ++ "' timed out after 15.0 seconds",
        agent_recovery_action := "Switch to alternative tool or replan" }) :=
  (execute_tool_error_taxonomy toolFixtures "sleepy").2.1 sleepyTool rfl rfl

/-- C4: for the fixture goal whose raw text contains "Demo-Safe-001", the
DEMO-SAFE branch runs — bypassing planner, executor and evaluator (all call
counters zero) regardless of the normal pipeline's behaviour — but the goal
ends `failed` with an `error` event, because the branch's hardcoded `Step`
constructions omit the required `description`/`expected_outcome` fields and
raise a pydantic `ValidationError` that lands in the outer handler. -/
theorem demo_safe_goal_fails (normalPath : Goal → ProcessOutcome) :
    processGoal demoGoal normalPath =
      { status := .failed, events := [⟨"goal_status", "g1"⟩, ⟨"error", "g1"⟩],
        plannerCalls := 0, executorCalls := 0, evaluatorCalls := 0 } := by
  have hcond : containsSeq "DEMO-SAFE-001".data (pyUpper demoGoal.raw_input.data) = true := by
    decide
  unfold processGoal
  rw [if_pos hcond]
  decide

end Solasta
